import Mathlib

/-!
Verification development for the AI-Powered Data Analysis Dashboard.

This file gives a shallow embedding of the data-processing core of the
repository (app/utils/data_utils.py, app/utils/genai_utils.py,
app/utils/viz_utils.py and the upload transaction of
app/dashboard/routes.py) and proves, or refutes, the frozen claims
about it.

Modelling conventions:
* pandas floats are modelled by rationals (`ℚ`); a missing entry
  (NaN / None) is `Option.none` at the column level;
* a dataframe is a list of named columns; a numeric column holds
  `Option ℚ` cells and an object (string) column holds `Option String`
  cells; datetime columns, which no claim touches, are not modelled;
* Python code that can raise is modelled with `Except` / explicit
  error results; stdlib calls whose outcome depends on the environment
  (`json.loads` of the model response, `df.memory_usage`) become
  explicit parameters of the embedding.
-/

namespace AIDA

/-- A dataframe cell value, used only to compare whole rows for
`drop_duplicates`: a numeric value or a string. -/
inductive Cell where
  | cnum (q : ℚ)
  | cstr (s : String)
deriving DecidableEq, Repr

/-- Column storage. pandas columns are homogeneous: a numeric column
holds rational cells, an object column holds string cells; `none`
is a missing entry (NaN). -/
inductive ColData where
  | numeric (cells : List (Option ℚ))
  | object (cells : List (Option String))
deriving DecidableEq, Repr

/-- Number of cells in a column. -/
def ColData.length : ColData → Nat
  | .numeric cells => cells.length
  | .object cells => cells.length

/-- The cell at row `i`, as a `Cell`; `none` both for a missing entry
and for an out-of-range index. -/
def ColData.cellAt : ColData → Nat → Option Cell
  | .numeric cells, i => ((cells.get? i).getD none).map Cell.cnum
  | .object cells, i => ((cells.get? i).getD none).map Cell.cstr

/-- Restrict a column to the rows listed in `idxs` (row selection, as
done by `drop_duplicates` keeping the first occurrence of each row). -/
def ColData.takeIdx : ColData → List Nat → ColData
  | .numeric cells, idxs => .numeric (idxs.map (fun i => (cells.get? i).getD none))
  | .object cells, idxs => .object (idxs.map (fun i => (cells.get? i).getD none))

/-- A dataframe: named columns in order. -/
structure DataFrame where
  cols : List (String × ColData)
deriving DecidableEq, Repr

/-- Model of `len(df)`: the number of rows, read off the first column. -/
def DataFrame.nRows (df : DataFrame) : Nat :=
  match df.cols with
  | [] => 0
  | p :: _ => p.2.length

/-- Model of `df.columns` as a list of names. -/
def DataFrame.colNames (df : DataFrame) : List String := df.cols.map Prod.fst

/-- The tuple of cells of row `i`, across all columns. -/
def DataFrame.rowAt (df : DataFrame) (i : Nat) : List (Option Cell) :=
  df.cols.map (fun p => p.2.cellAt i)

/-- Model of `df.empty`: true when either axis has length 0. -/
def DataFrame.isEmptyDf (df : DataFrame) : Bool :=
  df.nRows == 0 || df.cols.length == 0

/-- The numeric columns of `df`, i.e. `df.select_dtypes(include=[np.number])`. -/
def DataFrame.numericCols (df : DataFrame) : List (String × List (Option ℚ)) :=
  df.cols.filterMap (fun p =>
    match p.2 with
    | .numeric cells => some (p.1, cells)
    | .object _ => none)

/-- Row indices kept by `df.drop_duplicates()`: the first occurrence of
each distinct row tuple (pandas treats NaN entries as equal here, as
does `Option` equality). -/
def keepIndices (df : DataFrame) : List Nat :=
  (List.range df.nRows).filter (fun i =>
    (List.range i).all (fun j => decide (df.rowAt j ≠ df.rowAt i)))

/-- Model of `df.drop_duplicates()` from `clean_dataframe` (data_utils.py line 51). -/
def dropDuplicates (df : DataFrame) : DataFrame :=
  ⟨df.cols.map (fun p => (p.1, p.2.takeIdx (keepIndices df)))⟩

/-! ### Column statistics used by the cleaner and the statistics snapshot -/

/-- The present (non-missing) values of a numeric column. -/
def presentVals (cells : List (Option ℚ)) : List ℚ := cells.filterMap id

/-- The present values, sorted ascending. -/
def sortedVals (cells : List (Option ℚ)) : List ℚ :=
  List.insertionSort (· ≤ ·) (presentVals cells)

/-- Model of `Series.median()`: drop missing entries, sort, take the middle
element (odd count) or the mean of the two middle elements (even
count); `none` (NaN) when every entry is missing. -/
def median (cells : List (Option ℚ)) : Option ℚ :=
  let xs := sortedVals cells
  let n := xs.length
  if n = 0 then none
  else if n % 2 = 1 then xs.get? (n / 2)
  else do
    let a ← xs.get? (n / 2 - 1)
    let b ← xs.get? (n / 2)
    pure ((a + b) / 2)

/-- How many times `v` occurs in `xs`. -/
def countOf (xs : List String) (v : String) : Nat :=
  (xs.filter (fun w => w == v)).length

/-- The distinct elements of `l`, sorted ascending (Python/`np.unique`
sort both strings by code point, as does the `String` order here). -/
def sortedUniq (l : List String) : List String :=
  List.insertionSort (· ≤ ·) l.dedup

/-- Model of `Series.mode()[0]` for an object column: the most frequent present
value, ties broken by the smallest value (pandas returns the tied modes
sorted ascending and the code takes index 0); `none` when the mode
series is empty, i.e. when every entry is missing. -/
def modeVal (cells : List (Option String)) : Option String :=
  let xs := cells.filterMap id
  let cand := sortedUniq xs
  let best := cand.foldl (fun m v => max m (countOf xs v)) 0
  cand.find? (fun v => countOf xs v == best)

/-! ### clean_dataframe (data_utils.py lines 39-80) -/

/-- Model of `Series.fillna(value)` on a numeric column: present entries are
kept, missing entries become `value` (when `value` is NaN, i.e.
`none`, the entries stay missing, like pandas). -/
def fillna (value : Option ℚ) (cells : List (Option ℚ)) : List (Option ℚ) :=
  cells.map (fun c => c.orElse (fun _ => value))

/-- Numeric branch of the missing-value fill loop: `median_val =
df_clean[col].median(); df_clean[col] = df_clean[col].fillna(median_val)`. -/
def fillNum (cells : List (Option ℚ)) : List (Option ℚ) :=
  fillna (median cells) cells

/-- Model of `Series.fillna(value)` on an object column with a string value. -/
def fillnaStr (value : String) (cells : List (Option String)) : List (Option String) :=
  cells.map (fun c => c.orElse (fun _ => some value))

/-- Object branch of the fill loop: `fill_value = mode_val[0] if not
mode_val.empty else "Unknown"; fillna(fill_value)`. -/
def fillObj (cells : List (Option String)) : List (Option String) :=
  fillnaStr ((modeVal cells).getD "Unknown") cells

/-- One iteration of the fill loop (data_utils.py lines 54-63),
dispatching on `pd.api.types.is_numeric_dtype`. -/
def fillCol : ColData → ColData
  | .numeric cells => .numeric (fillNum cells)
  | .object cells => .object (fillObj cells)

/-- Model of `astype(str)` on an (already filled) object column; a remaining NaN
would stringify to "nan". -/
def strValues (cells : List (Option String)) : List String :=
  cells.map (fun c => c.getD "nan")

/-- The pairs `zip(le.transform(le.classes_), le.classes_)`: class `k`
of the fitted `LabelEncoder` is the `k`-th smallest distinct value, so
the mapping enumerates the sorted distinct values with codes from 0. -/
def withCodes : Nat → List String → List (Nat × String)
  | _, [] => []
  | n, c :: cs => (n, c) :: withCodes (n + 1) cs

/-- The encoding map stored for one categorical column
(data_utils.py lines 75-78). -/
def mappingOf (cells : List (Option String)) : List (Nat × String) :=
  withCodes 0 (sortedUniq (strValues cells))

/-- Position of the first occurrence of `v` (the integer code
`LabelEncoder.transform` assigns, since the class list is sorted and
distinct). -/
def idxOf : List String → String → Nat
  | [], _ => 0
  | c :: cs, v => if c = v then 0 else idxOf cs v + 1

/-- Model of `le.fit_transform`: each value becomes its index in the sorted
list of distinct values. -/
def encodeVals (cells : List (Option String)) : List (Option ℚ) :=
  let classes := sortedUniq (strValues cells)
  (strValues cells).map (fun v => some ((idxOf classes v : ℕ) : ℚ))

/-- The label-encoding loop applied to one column: object columns are
replaced by their integer codes, numeric columns are untouched
(`select_dtypes(include=['object'])` picks only object columns). -/
def encodeCol : ColData → ColData
  | .numeric cells => .numeric cells
  | .object cells => .numeric (encodeVals cells)

/-- Model of `clean_dataframe` (data_utils.py lines 39-80): copy, drop duplicate
rows, fill missing values per column, label-encode object columns and
record the code-to-value mappings. The Python function works on a copy
(line 47); the embedding is pure, so the argument is never modified. -/
def clean_dataframe (df : DataFrame) : DataFrame × List (String × List (Nat × String)) :=
  let dd := dropDuplicates df
  let filled : DataFrame := ⟨dd.cols.map (fun p => (p.1, fillCol p.2))⟩
  (⟨filled.cols.map (fun p => (p.1, encodeCol p.2))⟩,
   filled.cols.filterMap (fun p =>
     match p.2 with
     | .object cells => some (p.1, mappingOf cells)
     | .numeric _ => none))

/-- Decode an integer code through a stored encoding map (the "inverse
mapping" of the spec): look the code up among the map's keys. -/
def lookupCode (m : List (Nat × String)) (k : Nat) : Option String :=
  (m.find? (fun p => p.1 == k)).map Prod.snd

/-- The fill value used for an object column: its mode, or "Unknown"
when every entry is missing. -/
def fillValue (cells : List (Option String)) : String :=
  (modeVal cells).getD "Unknown"

/-- The string values of an object column after missing-value fill
and `astype(str)` — the values the label encoder is fitted on. -/
def filledVals (cells : List (Option String)) : List String :=
  strValues (fillObj cells)

/-- The classes of the fitted `LabelEncoder`: the distinct post-fill
values, sorted ascending. -/
def classesOf (cells : List (Option String)) : List String :=
  sortedUniq (filledVals cells)

/-! ### get_column_info (data_utils.py lines 15-37) -/

/-- One entry of the column-info list: the dicts
`{'name': col, 'type': col_type}`. -/
structure ColumnInfo where
  name : String
  ctype : String
deriving DecidableEq, Repr

/-- Model of `get_column_info`: object storage is classified "categorical",
everything else (here: numeric) "numerical". Datetime columns are not
modelled. -/
def get_column_info (df : DataFrame) : List ColumnInfo :=
  df.cols.map (fun p =>
    ⟨p.1,
     match p.2 with
     | .object _ => "categorical"
     | .numeric _ => "numerical"⟩)

/-! ### get_dataset_stats (data_utils.py lines 82-126) -/

/-- JSON-like values, the shape of the statistics snapshot dict. -/
inductive JVal where
  | jnull
  | jint (n : ℤ)
  | jrat (q : ℚ)
  | jstr (s : String)
  | jlist (xs : List JVal)
  | jobj (fields : List (String × JVal))

/-- A possibly-missing rational as a JSON value (NaN serialises
specially; no claim depends on it). -/
def jOptRat : Option ℚ → JVal
  | some q => .jrat q
  | none => .jnull

/-- Mean of the present values; `none` when there are none. -/
def meanVal (cells : List (Option ℚ)) : Option ℚ :=
  let xs := presentVals cells
  if xs.length = 0 then none else some (xs.foldl (· + ·) 0 / xs.length)

/-- Sample variance (ddof = 1) of the present values. pandas `describe`
reports the standard deviation, its square root; the square root of a
rational is irrational in general, so the model stores the variance in
the `std` slot — no claim depends on the value, only on the field
being present. -/
def varianceVal (cells : List (Option ℚ)) : Option ℚ :=
  let xs := presentVals cells
  let n := xs.length
  if n < 2 then none
  else
    let m : ℚ := xs.foldl (· + ·) 0 / (n : ℚ)
    some ((xs.map (fun x => (x - m) ^ 2)).foldl (· + ·) 0 / ((n : ℚ) - 1))

/-- Linear-interpolation quantile of the present values (pandas
default), used for the 25%/50%/75% rows of `describe`. -/
def quantileVal (cells : List (Option ℚ)) (p : ℚ) : Option ℚ :=
  let xs := sortedVals cells
  let n := xs.length
  if n = 0 then none
  else
    let h : ℚ := p * ((n : ℚ) - 1)
    let i : ℕ := (⌊h⌋).toNat
    let frac : ℚ := h - ⌊h⌋
    match xs.get? i with
    | none => none
    | some a =>
      match xs.get? (i + 1) with
      | some b => some (a + frac * (b - a))
      | none => some a

/-- Smallest present value. -/
def minVal (cells : List (Option ℚ)) : Option ℚ := (sortedVals cells).head?

/-- Largest present value. -/
def maxVal (cells : List (Option ℚ)) : Option ℚ := (sortedVals cells).getLast?

/-- Number of missing entries of a column (`df.isnull().sum()` per
column). -/
def ColData.nullCount : ColData → Nat
  | .numeric cells => (cells.filter (fun c => c.isNone)).length
  | .object cells => (cells.filter (fun c => c.isNone)).length

/-- Model of `df.count()` per column: non-missing entries. -/
def ColData.nonNullCount (c : ColData) : Nat := c.length - c.nullCount

/-- Model of `str(dtype)` of a column in the model. -/
def ColData.dtypeStr : ColData → String
  | .numeric _ => "float64"
  | .object _ => "object"

/-- Model of `df[col].head().tolist()`: the first five cells as JSON values. -/
def ColData.headJ : ColData → JVal
  | .numeric cells => .jlist ((cells.take 5).map jOptRat)
  | .object cells =>
      .jlist ((cells.take 5).map (fun c =>
        match c with
        | some s => JVal.jstr s
        | none => JVal.jnull))

/-- The row index of `df.describe()` for numeric data. -/
def describeStats : List String :=
  ["count", "mean", "std", "min", "25%", "50%", "75%", "max"]

/-- One `describe` statistic of one numeric column. -/
def statOf (s : String) (cells : List (Option ℚ)) : JVal :=
  if s = "count" then .jint ((presentVals cells).length : ℤ)
  else if s = "mean" then jOptRat (meanVal cells)
  else if s = "std" then jOptRat (varianceVal cells)
  else if s = "min" then jOptRat (minVal cells)
  else if s = "25%" then jOptRat (quantileVal cells (1 / 4))
  else if s = "50%" then jOptRat (quantileVal cells (1 / 2))
  else if s = "75%" then jOptRat (quantileVal cells (3 / 4))
  else jOptRat (maxVal cells)

/-- The `describe` sub-map: built only when the numeric sub-frame is
non-empty (it is empty when there is no numeric column or no row);
one entry per statistic, each a list over the numeric columns. -/
def describeData (df : DataFrame) : JVal :=
  if df.numericCols.isEmpty || df.nRows == 0 then .jobj []
  else
    .jobj (describeStats.map (fun s =>
      (s, JVal.jlist (df.numericCols.map (fun p => statOf s p.2)))))

/-- Model of `get_dataset_stats` (data_utils.py lines 82-126). `memUsage` is the
environment-dependent byte count `df.memory_usage(deep=True).sum()`,
not derivable in the model; `ok = false` models the `except Exception`
branch (some library call failed), which returns the minimal snapshot. -/
def get_dataset_stats (df : DataFrame) (memUsage : ℤ) (ok : Bool) : JVal :=
  if ok then
    .jobj
      [("shape", .jlist [.jint (df.nRows : ℤ), .jint (df.cols.length : ℤ)]),
       ("total_null_values",
        .jint ((df.cols.map (fun p => p.2.nullCount)).foldl (· + ·) 0 : ℤ)),
       ("column_null_values",
        .jobj (df.cols.map (fun p => (p.1, JVal.jint (p.2.nullCount : ℤ))))),
       ("dtypes", .jobj (df.cols.map (fun p => (p.1, JVal.jstr p.2.dtypeStr)))),
       ("head", .jobj (df.cols.map (fun p => (p.1, p.2.headJ)))),
       ("describe", describeData df),
       ("info",
        .jobj
          [("columns", .jlist (df.colNames.map JVal.jstr)),
           ("non_null_counts",
            .jobj (df.cols.map (fun p => (p.1, JVal.jint (p.2.nonNullCount : ℤ))))),
           ("memory_usage", .jint memUsage)])]
  else
    .jobj
      [("shape", .jlist [.jint (df.nRows : ℤ), .jint (df.cols.length : ℤ)]),
       ("total_null_values", .jint 0),
       ("column_null_values", .jobj []),
       ("dtypes", .jobj []),
       ("head", .jobj []),
       ("describe", .jobj []),
       ("info",
        .jobj
          [("columns", .jlist (df.colNames.map JVal.jstr)),
           ("non_null_counts", .jobj []),
           ("memory_usage", .jint 0)])]

/-! ### The Suggestion Engine (genai_utils.py lines 285-376) -/

/-- One parsed suggestion object. Each field models `dict.get` on the
corresponding key: `none` when the key is absent. -/
structure Suggestion where
  type : Option String
  x : Option String
  y : Option String
  reason : Option String
deriving DecidableEq, Repr

/-- The filter of `_parse_ai_response` (line 297-300): keep the
suggestion unless its `type` is one of heatmap, box, scatter. A missing
`type` passes the filter (`None not in [...]`). -/
def typeAllowed (s : Suggestion) : Bool :=
  match s.type with
  | some t => !(t == "heatmap" || t == "box" || t == "scatter")
  | none => true

/-- The x-column check (line 308): `suggestion.get('x') not in
column_names` skips the suggestion, so a present x naming an existing
column is required. -/
def xOk (s : Suggestion) (names : List String) : Bool :=
  match s.x with
  | some v => names.contains v
  | none => false

/-- The y-column check (line 312): the suggestion is skipped when
`suggestion.get('y')` is truthy (present and non-empty) and not a
column name; an absent or empty y passes. -/
def yBad (s : Suggestion) (names : List String) : Bool :=
  match s.y with
  | some v => !(v == "") && !(names.contains v)
  | none => false

/-- The validation loop of `_parse_ai_response` (lines 306-319):
append each surviving suggestion and stop once five are collected. -/
def validateLoop (names : List String) : List Suggestion → List Suggestion → List Suggestion
  | [], acc => acc
  | s :: rest, acc =>
      if !(xOk s names) then validateLoop names rest acc
      else if yBad s names then validateLoop names rest acc
      else
        let acc' := acc ++ [s]
        if 5 ≤ acc'.length then acc' else validateLoop names rest acc'

/-- The suggestion list `_generate_fallback_suggestions` builds from
the numerical and categorical column-name lists (genai_utils.py lines
332-376): up to five entries, in order histogram, categorical bar,
frequency bar, line, second histogram, then capped at five. -/
def fallback_core (numerical_cols categorical_cols : List String) : List Suggestion :=
  let s1 : List Suggestion :=
    if numerical_cols.isEmpty then []
    else [⟨some "histogram", some (numerical_cols.headD ""), none,
           some "Distribution of numerical variable"⟩]
  let s2 : List Suggestion :=
    if categorical_cols.isEmpty || numerical_cols.isEmpty then s1
    else s1 ++ [⟨some "bar", some (categorical_cols.headD ""),
                 some (numerical_cols.headD ""),
                 some "Comparison across categories"⟩]
  let s3 : List Suggestion :=
    if categorical_cols.isEmpty then s2
    else s2 ++ [⟨some "bar", some (categorical_cols.headD ""), none,
                 some "Frequency of categories"⟩]
  let s4 : List Suggestion :=
    if numerical_cols.length < 2 then s3
    else s3 ++ [⟨some "line", some (numerical_cols.headD ""),
                 some (numerical_cols.getD 1 ""),
                 some "Trend analysis"⟩]
  let s5 : List Suggestion :=
    if numerical_cols.length < 2 then s4
    else s4 ++ [⟨some "histogram", some (numerical_cols.getD 1 ""), none,
                 some "Additional distribution analysis"⟩]
  s5.take 5

/-- Model of `_generate_fallback_suggestions` (genai_utils.py lines 327-376):
the deterministic rule-based list, derived purely from column types. -/
def generate_fallback_suggestions (columns : List ColumnInfo) : List Suggestion :=
  fallback_core
    ((columns.filter (fun c => c.ctype == "numerical")).map (·.name))
    ((columns.filter (fun c => c.ctype == "categorical")).map (·.name))

/-- Model of `_parse_ai_response` (genai_utils.py lines 285-325). The stdlib
steps — stripping fenced code blocks and `json.loads` — are abstracted
into the `parsed` argument: `none` models a `json.JSONDecodeError`
(only that exception triggers the fallback), `some l` a successfully
parsed list of suggestion objects. -/
def parse_ai_response (parsed : Option (List Suggestion)) (columns : List ColumnInfo) :
    List Suggestion :=
  match parsed with
  | none => generate_fallback_suggestions columns
  | some suggestions =>
      let filtered := suggestions.filter typeAllowed
      validateLoop (columns.map (·.name)) filtered []

/-! ### The Visualization Renderer (viz_utils.py)

No claim inspects pixel data, so a figure is modelled by the kind
of chart drawn and its column arguments; the base64 PNG payload is
modelled by `Payload.dataImage`.  Description strings are modelled
literally; the few embedded numbers that Python computes on IEEE
doubles (means, standard deviations, skewness) are approximated by
rational arithmetic — no claim depends on those digits. -/

/-- The figure drawn by `_create_figure_with_description` or one of
the two essential-visualization helpers. -/
inductive Fig where
  | hist30 (x : String)
  | barMean (x y : String)
  | lineFig (x y : String)
  | pieFig (x : String)
  | violinFig (x y : String)
  | hist20 (x : String)
  | heatFig (cols : List String)
  | boxFig (cols : List String)
deriving DecidableEq, Repr

/-- The first component returned by `generate_visualization`: either
the base64 data URI of a rendered figure, or the data URI of the error
image produced by `_generate_error_image(msg)` (the designated error
payload). -/
inductive Payload where
  | dataImage (fig : Fig)
  | errorImage (msg : String)
deriving DecidableEq, Repr

/-- Python truthiness of the optional y column: `if y_col` is false
for `None` and for the empty string. -/
def truthy : Option String → Bool
  | some v => !(v == "")
  | none => false

/-- Column lookup, `df[name]`. -/
def DataFrame.getCol (df : DataFrame) (nm : String) : Option ColData :=
  (df.cols.find? (fun p => p.1 == nm)).map Prod.snd

/-- A column's cells as generic values, for grouping and counting. -/
def ColData.cellList : ColData → List (Option Cell)
  | .numeric cells => cells.map (fun c => c.map Cell.cnum)
  | .object cells => cells.map (fun c => c.map Cell.cstr)

/-- Distinct values in order of first appearance. -/
def firstOccurAux : List Cell → List Cell → List Cell
  | [], _ => []
  | x :: rest, seen =>
      if x ∈ seen then firstOccurAux rest seen
      else x :: firstOccurAux rest (x :: seen)

/-- Distinct values in order of first appearance. -/
def firstOccur (xs : List Cell) : List Cell := firstOccurAux xs []

/-- Occurrence count of one value. -/
def countCell (xs : List Cell) (v : Cell) : Nat :=
  (xs.filter (fun w => decide (w = v))).length

/-- Model of `Series.value_counts()`: present values with their counts, sorted
by count descending (stable sort, matching order of appearance on
ties). -/
def valueCounts (cells : List (Option Cell)) : List (Cell × Nat) :=
  let xs := cells.filterMap id
  List.insertionSort (fun a b => b.2 ≤ a.2)
    ((firstOccur xs).map (fun k => (k, countCell xs k)))

/-- Model of `Series.nunique()`: distinct present values. -/
def nuniqueCells (cells : List (Option Cell)) : Nat :=
  (firstOccur (cells.filterMap id)).length

/-- Rational stand-in for CPython `f"{v:.1f}"` (the exact output is a
function of the IEEE double; no claim depends on these digits). -/
def fmtFixed1 (q : ℚ) : String :=
  let n : ℤ := ⌊q * 10 + 1 / 2⌋
  let sgn := if n < 0 then "-" else ""
  let m := n.natAbs
  sgn ++ toString (m / 10) ++ "." ++ toString (m % 10)

/-- Rational stand-in for `f"{v:.2f}"`. -/
def fmtFixed2 (q : ℚ) : String :=
  let n : ℤ := ⌊q * 100 + 1 / 2⌋
  let sgn := if n < 0 then "-" else ""
  let m := n.natAbs
  sgn ++ toString (m / 100) ++ "." ++ (if m % 100 < 10 then "0" else "") ++ toString (m % 100)

/-- Formatting of a possibly-NaN statistic (`f"{nan:.1f}"` is "nan"). -/
def fmtOpt1 : Option ℚ → String
  | some q => fmtFixed1 q
  | none => "nan"

/-- Formatting of a possibly-NaN statistic, two decimals. -/
def fmtOpt2 : Option ℚ → String
  | some q => fmtFixed2 q
  | none => "nan"

/-- Rational approximation of the square root (floats are not
modelled; used only inside description text no claim depends on). -/
def approxSqrt (q : ℚ) : ℚ :=
  if q ≤ 0 then 0 else ((Nat.sqrt (⌊q * 100000000⌋).toNat : ℚ)) / 10000

/-- Model of `Series.skew()` (bias-corrected sample skewness), with the square
root approximated rationally; `none` (NaN) below three values or at
zero variance. -/
def skewVal (cells : List (Option ℚ)) : Option ℚ :=
  let xs := presentVals cells
  let n := xs.length
  if n < 3 then none
  else
    match varianceVal cells with
    | none => none
    | some v =>
        let s := approxSqrt v
        if s = 0 then none
        else
          let m : ℚ := xs.foldl (· + ·) 0 / (n : ℚ)
          some (((n : ℚ) / (((n : ℚ) - 1) * ((n : ℚ) - 2))) *
            (xs.map (fun x => ((x - m) / s) ^ 3)).foldl (· + ·) 0)

/-- The histogram description (viz_utils.py lines 65-68). -/
def histDesc (df : DataFrame) (x : String) (cells : List (Option ℚ)) : String :=
  "Histogram of " ++ x ++ " with " ++ toString df.nRows ++ " values. Range: " ++
    fmtOpt1 (minVal cells) ++ "-" ++ fmtOpt1 (maxVal cells) ++ ", Mean: " ++
    fmtOpt1 (meanVal cells) ++ ", Std: " ++ fmtOpt1 ((varianceVal cells).map approxSqrt) ++
    ". Skewness: " ++ fmtOpt2 (skewVal cells) ++ "."

/-- The bar-chart group keys: all distinct x values, or the 15 most
frequent when there are more than 15 (viz_utils.py lines 72-78). -/
def barKeys (xcells : List (Option Cell)) : List Cell :=
  let keys0 := firstOccur (xcells.filterMap id)
  if 15 < keys0.length then ((valueCounts xcells).take 15).map Prod.fst else keys0

/-- Model of `groupby(x)[y].mean()` per bar-chart group; a group whose y values
are all missing gets a NaN mean. -/
def groupMeans (xcells : List (Option Cell)) (ycells : List (Option ℚ)) : List (Option ℚ) :=
  (barKeys xcells).map (fun k =>
    meanVal (((xcells.zip ycells).filter (fun p => decide (p.1 = some k))).map Prod.snd))

/-- The bar-chart description (viz_utils.py lines 89-90). -/
def barDesc (x y : String) (xcells : List (Option Cell)) (ycells : List (Option ℚ)) : String :=
  let ms := groupMeans xcells ycells
  "Bar chart showing average " ++ y ++ " across " ++ toString ms.length ++ " " ++ x ++
    " categories. Values range from " ++ fmtOpt1 (minVal ms) ++ " to " ++
    fmtOpt1 (maxVal ms) ++ "."

/-- Model of `str()` of a cell inside an f-string (float repr approximated). -/
def cellStr : Cell → String
  | .cstr s => s
  | .cnum q => fmtFixed1 q

/-- The pie-chart description (viz_utils.py lines 106-112); `none`
models the `IndexError` raised by `value_counts.index[0]` when the
column has no present value. -/
def pieDesc (x : String) (xcells : List (Option Cell)) : Option String :=
  let vcs := (valueCounts xcells).take 8
  match vcs.head? with
  | none => none
  | some c0 =>
      let total : ℕ := (vcs.map Prod.snd).foldl (· + ·) 0
      some ("Pie chart showing distribution of " ++ x ++ " across " ++ toString vcs.length ++
        " categories. Largest category: " ++ cellStr c0.1 ++ " (" ++
        fmtFixed1 ((c0.2 : ℚ) * 100 / (total : ℚ)) ++ "%).")

/-- Category count reported by the violin description: capped at the
10 most frequent categories (viz_utils.py lines 116-127). -/
def violinCatCount (xcells : List (Option Cell)) : Nat :=
  let nu := nuniqueCells xcells
  if 10 < nu then 10 else nu

/-- Model of `_create_figure_with_description` (viz_utils.py lines 52-137).
`Except.error` models an exception escaping the branch: the histogram
branch needs a numeric x (`describe()['min']` / `skew()` fail
otherwise), the bar/line/violin branches need a numeric y (mean
aggregation and `:.1f` formatting fail otherwise), the pie branch
needs a present value, and every branch needs its x column to exist.
Note the `bar`/`line`/`violin` guards also require a truthy y, else
control falls to the default histogram branch. -/
def create_figure_with_description (df : DataFrame) (graph_type x_col : String)
    (y_col : Option String) : Except String (Fig × String) :=
  if graph_type == "histogram" then
    match df.getCol x_col with
    | some (.numeric cells) => .ok (.hist30 x_col, histDesc df x_col cells)
    | _ => .error ("cannot compute describe statistics of column " ++ x_col)
  else if graph_type == "bar" && truthy y_col then
    match df.getCol x_col, df.getCol (y_col.getD "") with
    | some xc, some (.numeric ycells) =>
        .ok (.barMean x_col (y_col.getD ""), barDesc x_col (y_col.getD "") xc.cellList ycells)
    | _, _ => .error ("cannot aggregate mean of column " ++ y_col.getD "")
  else if graph_type == "line" && truthy y_col then
    match df.getCol x_col, df.getCol (y_col.getD "") with
    | some _, some (.numeric ycells) =>
        .ok (.lineFig x_col (y_col.getD ""),
          "Line chart showing " ++ y_col.getD "" ++ " across " ++ toString df.nRows ++ " " ++
            x_col ++ " values. Trend from " ++ fmtOpt1 (minVal ycells) ++ " to " ++
            fmtOpt1 (maxVal ycells) ++ ".")
    | _, _ => .error ("cannot format bounds of column " ++ y_col.getD "")
  else if graph_type == "pie" then
    match df.getCol x_col with
    | some xc =>
        match pieDesc x_col xc.cellList with
        | some d => .ok (.pieFig x_col, d)
        | none => .error "index 0 is out of bounds"
    | none => .error ("column " ++ x_col ++ " not found")
  else if graph_type == "violin" && truthy y_col then
    match df.getCol x_col, df.getCol (y_col.getD "") with
    | some xc, some (.numeric _) =>
        .ok (.violinFig x_col (y_col.getD ""),
          "Violin plot showing distribution of " ++ y_col.getD "" ++ " across " ++
            toString (violinCatCount xc.cellList) ++ " " ++ x_col ++ " categories.")
    | _, _ => .error ("cannot draw violin of column " ++ y_col.getD "")
  else
    match df.getCol x_col with
    | some _ =>
        .ok (.hist20 x_col,
          "Visualization of " ++ x_col ++ " distribution with " ++ toString df.nRows ++
            " data points.")
    | none => .error ("column " ++ x_col ++ " not found")

/-- Pearson |r| > 0.7 between two numeric columns, on their pairwise
complete observations, stated without square roots:
`100·cov² > 49·varx·vary` with the centred sums scaled by `n²`. A
zero variance gives a NaN correlation in pandas, which never counts
as strong. -/
def corrStrong (a b : List (Option ℚ)) : Bool :=
  let ps := (a.zip b).filterMap (fun p =>
    match p.1, p.2 with
    | some x, some y => some (x, y)
    | _, _ => none)
  let n : ℚ := ps.length
  let sx := (ps.map Prod.fst).foldl (· + ·) 0
  let sy := (ps.map Prod.snd).foldl (· + ·) 0
  let sxx := (ps.map (fun p => p.1 * p.1)).foldl (· + ·) 0
  let syy := (ps.map (fun p => p.2 * p.2)).foldl (· + ·) 0
  let sxy := (ps.map (fun p => p.1 * p.2)).foldl (· + ·) 0
  let vx := n * sxx - sx * sx
  let vy := n * syy - sy * sy
  let cv := n * sxy - sx * sy
  decide (vx ≠ 0 ∧ vy ≠ 0 ∧ 100 * cv ^ 2 > 49 * (vx * vy))

/-- The number of unordered pairs (i < j) of numeric columns whose
correlation satisfies |r| > 0.7 — `len(strong_corrs)` in
`_generate_correlation_heatmap` (viz_utils.py lines 160-165). -/
def strongPairCount (df : DataFrame) : Nat :=
  let cs := df.numericCols.map Prod.snd
  ((List.range cs.length).map (fun i =>
    ((List.range cs.length).filter (fun j =>
      decide (i < j) && corrStrong (cs.getD i []) (cs.getD j []))).length)).foldl (· + ·) 0

/-- Model of `_generate_correlation_heatmap` (viz_utils.py lines 139-182). -/
def generate_correlation_heatmap (df : DataFrame) : Payload × String :=
  let ncols := df.numericCols
  if ncols.length < 2 then
    (.errorImage "Not enough numerical columns for heatmap",
     "Insufficient numerical columns (need at least 2) for correlation analysis")
  else
    let strong := strongPairCount df
    let descHead := "Correlation heatmap showing relationships between " ++
      toString ncols.length ++ " numerical variables. "
    let descTail :=
      if 0 < strong then
        "Strong correlations found between " ++ toString (min 3 strong) ++ " variable pairs."
      else "No strong correlations detected."
    (.dataImage (.heatFig (ncols.map Prod.fst)), descHead ++ descTail)

/-- Outliers of one numeric column by the 1.5×IQR rule
(viz_utils.py lines 218-222); NaN comparisons are false, so an
all-missing column has quartile NaN and zero outliers. -/
def outlierCount (cells : List (Option ℚ)) : Nat :=
  match quantileVal cells (1 / 4), quantileVal cells (3 / 4) with
  | some q1, some q3 =>
      let iqr := q3 - q1
      (cells.filter (fun c =>
        match c with
        | some v => decide (v < q1 - 3 / 2 * iqr ∨ v > q3 + 3 / 2 * iqr)
        | none => false)).length
  | _, _ => 0

/-- The column with the most outliers (`sorted(..., reverse=True)[0]`,
stable on ties). -/
def topOutlierName (counts : List (String × Nat)) : String :=
  ((List.insertionSort (fun a b => b.2 ≤ a.2) counts).headD ("", 0)).1

/-- Model of `_generate_outlier_boxplots` (viz_utils.py lines 184-248); at most
the first six numeric columns are drawn. -/
def generate_outlier_boxplots (df : DataFrame) : Payload × String :=
  let ncols0 := df.numericCols
  if ncols0.length == 0 then
    (.errorImage "No numerical columns for box plots",
     "No numerical columns available for outlier analysis")
  else
    let ncols := ncols0.take 6
    let counts := ncols.map (fun p => (p.1, outlierCount p.2))
    let total : ℕ := (counts.map Prod.snd).foldl (· + ·) 0
    let descHead := "Box plots showing outlier detection for " ++ toString ncols.length ++
      " numerical variables. Total outliers detected: " ++ toString total ++ ". "
    let d :=
      if 0 < total then descHead ++ "Most outliers in " ++ topOutlierName counts ++ "."
      else descHead
    (.dataImage (.boxFig (ncols.map Prod.fst)), d)

/-- Model of `generate_visualization` (viz_utils.py lines 14-50): validation,
the two `all_numerical` sentinel dispatches, and the try/except that
turns any rendering exception into the error payload. -/
def generate_visualization (df : DataFrame) (graph_type x_col : String)
    (y_col : Option String) : Payload × String :=
  if df.isEmptyDf then
    (.errorImage "Empty dataset", "Empty dataset - no data to visualize")
  else if graph_type == "heatmap" && x_col == "all_numerical" then
    generate_correlation_heatmap df
  else if graph_type == "box" && x_col == "all_numerical" then
    generate_outlier_boxplots df
  else if !(df.colNames.contains x_col) && !(x_col == "all_numerical") then
    (.errorImage ("X-axis column \x27" ++ x_col ++ "\x27 not found"),
     "Error: X-axis column \x27" ++ x_col ++ "\x27 not found in dataset")
  else if truthy y_col && !(df.colNames.contains (y_col.getD "")) then
    (.errorImage ("Y-axis column \x27" ++ y_col.getD "" ++ "\x27 not found"),
     "Error: Y-axis column \x27" ++ y_col.getD "" ++ "\x27 not found in dataset")
  else
    match create_figure_with_description df graph_type x_col y_col with
    | .ok (fig, d) => (.dataImage fig, d)
    | .error e =>
        (.errorImage ("Error generating visualization: " ++ e), "Error: " ++ e)

/-! ### The upload transaction (app/dashboard/routes.py lines 69-212) -/

/-- A database row created by the upload handler. -/
inductive DbRow where
  | sessionRow (uploadId : Nat)
  | vizRow (uploadId : Nat) (idx : Nat)
deriving DecidableEq, Repr

/-- The SQLAlchemy session: committed rows and the pending rows added
since the last commit. -/
structure DbState where
  committed : List DbRow
  pending : List DbRow
deriving DecidableEq, Repr

/-- Model of `db.session.add`. -/
def dbAdd (s : DbState) (r : DbRow) : DbState := ⟨s.committed, s.pending ++ [r]⟩

/-- Model of `db.session.commit`: pending rows become durable. -/
def dbCommit (s : DbState) : DbState := ⟨s.committed ++ s.pending, []⟩

/-- Model of `db.session.rollback`: pending rows are discarded; committed rows
are untouched. -/
def dbRollback (s : DbState) : DbState := ⟨s.committed, []⟩

/-- Where the upload handler fails, if anywhere. Exceptions inside the
per-visualization loops are caught by the inner `except ... continue`
and are modelled by the per-visualization plan instead. -/
inductive FailPoint where
  | beforeSession
  | suggestStage
  | finalCommit
  | success
deriving DecidableEq, Repr

/-- Add one visualization row per successful generation step; a
`false` entry models an exception caught by the inner
`except`/`continue` of the loops at lines 137-161 and 164-193. -/
def addVizRows (uid : Nat) : Nat → List Bool → DbState → DbState
  | _, [], s => s
  | i, ok :: rest, s =>
      addVizRows uid (i + 1) rest (if ok then dbAdd s (.vizRow uid i) else s)

/-- The upload handler transaction skeleton (routes.py lines 90-206):
the session row is added and committed first (lines 116-117); the
essential and suggested visualizations are added to the pending set;
a final commit makes them durable (line 195); any exception reaching
the outer handler runs `db.session.rollback()` (line 201).
`beforeSession` covers `read_csv`/statistics/cleaning failures,
`suggestStage` an exception between the session commit and the loops
(e.g. the OpenAI client constructor), `finalCommit` a failure of the
commit at line 195. -/
def upload_txn (db0 : DbState) (uid : Nat) (vizPlan : List Bool) (fail : FailPoint) :
    DbState :=
  match fail with
  | .beforeSession => dbRollback db0
  | .suggestStage => dbRollback (dbCommit (dbAdd db0 (.sessionRow uid)))
  | .finalCommit => dbRollback (addVizRows uid 0 vizPlan (dbCommit (dbAdd db0 (.sessionRow uid))))
  | .success => dbCommit (addVizRows uid 0 vizPlan (dbCommit (dbAdd db0 (.sessionRow uid))))

/-- The visualization rows the successful run commits. -/
def keptVizRows (uid : Nat) : Nat → List Bool → List DbRow
  | _, [] => []
  | i, ok :: rest => (if ok then [DbRow.vizRow uid i] else []) ++ keptVizRows uid (i + 1) rest

/-! ## Theorems for the claims -/

/-- Helper: the visualization-adding loops only extend the pending set. -/
theorem addVizRows_spec (uid : Nat) (i : Nat) (plan : List Bool) (s : DbState) :
    addVizRows uid i plan s = ⟨s.committed, s.pending ++ keptVizRows uid i plan⟩ := by
  induction plan generalizing i s with
  | nil => simp [addVizRows, keptVizRows]
  | cons ok rest ih =>
      cases ok <;> simp [addVizRows, keptVizRows, ih, dbAdd]

/-- C7: `get_dataset_stats` always returns a well-formed snapshot
object with the fields shape, total_null_values, column_null_values,
dtypes, head, describe and info (the latter with columns,
non_null_counts and memory_usage), on every dataframe — including a
zero-row one — and on the internal-error path, which zeroes the
sub-maps instead of omitting fields. -/
theorem C7_stats_snapshot_well_formed (df : DataFrame) (memUsage : ℤ) (ok : Bool) :
    (∃ v1 v2 v3 v4 v5 v6 w1 w2 w3,
      get_dataset_stats df memUsage ok =
        JVal.jobj
          [("shape", v1), ("total_null_values", v2), ("column_null_values", v3),
           ("dtypes", v4), ("head", v5), ("describe", v6),
           ("info", JVal.jobj
             [("columns", w1), ("non_null_counts", w2), ("memory_usage", w3)])]) ∧
    get_dataset_stats df memUsage false =
      JVal.jobj
        [("shape", .jlist [.jint (df.nRows : ℤ), .jint (df.cols.length : ℤ)]),
         ("total_null_values", .jint 0),
         ("column_null_values", .jobj []),
         ("dtypes", .jobj []),
         ("head", .jobj []),
         ("describe", .jobj []),
         ("info", .jobj
           [("columns", .jlist (df.colNames.map JVal.jstr)),
            ("non_null_counts", .jobj []),
            ("memory_usage", .jint 0)])] := by
  constructor
  · cases ok <;> exact ⟨_, _, _, _, _, _, _, _, _, rfl⟩
  · rfl

/-- C4 counterexample: an upload of a fresh database that fails right
after the session row was created and committed (e.g. the suggestion
stage raises) leaves the session row durably committed — the rollback
removes only the pending rows, so an incomplete session (a session row
with no visualization rows) is visible, contradicting the claim that
every session row created for the upload is removed. -/
theorem C4_counterexample :
    (upload_txn ⟨[], []⟩ 1 [true, true] FailPoint.suggestStage).committed
      = [DbRow.sessionRow 1] ∧
    (upload_txn ⟨[], []⟩ 1 [true, true] FailPoint.suggestStage).committed ≠ [] := by
  refine ⟨rfl, by decide⟩

/-- C4 amended: only a failure before the session row is committed
leaves no rows for the upload; the session row is committed in its own
transaction immediately after creation, so a later failure (suggestion
retrieval, or the final commit of the visualization rows) rolls back
only the pending visualization rows while the committed session row
persists; a fully successful run commits the session row plus one row
per successfully generated visualization. -/
theorem C4_amended (db0 : DbState) (uid : Nat) (plan : List Bool)
    (h : db0.pending = []) :
    upload_txn db0 uid plan .beforeSession = db0 ∧
    upload_txn db0 uid plan .suggestStage = ⟨db0.committed ++ [.sessionRow uid], []⟩ ∧
    upload_txn db0 uid plan .finalCommit = ⟨db0.committed ++ [.sessionRow uid], []⟩ ∧
    upload_txn db0 uid plan .success =
      ⟨db0.committed ++ [.sessionRow uid] ++ keptVizRows uid 0 plan, []⟩ := by
  obtain ⟨c, p⟩ := db0
  simp only [DbState.mk.injEq] at h ⊢
  subst h
  refine ⟨?_, ?_, ?_, ?_⟩ <;>
    simp [upload_txn, dbRollback, dbCommit, dbAdd, addVizRows_spec]

/-- Witness for C4 amended, at a fresh database, upload id 1, one
successful visualization. -/
theorem C4_amended_witness :
    upload_txn ⟨[], []⟩ 1 [true] .suggestStage = ⟨[DbRow.sessionRow 1], []⟩ ∧
    upload_txn ⟨[], []⟩ 1 [true] .success =
      ⟨[DbRow.sessionRow 1, DbRow.vizRow 1 0], []⟩ := by
  have h := C4_amended ⟨[], []⟩ 1 [true] rfl
  exact ⟨by simpa using h.2.1, by simpa [keptVizRows] using h.2.2.2⟩

/-- C6 counterexample: a dataframe with four identical numeric columns
has six unordered strongly correlated pairs (every pair has r = 1),
but the heatmap description reports `min(3, 6) = 3` pairs, not the
count 6 the claim requires. -/
theorem C6_counterexample :
    strongPairCount
        ⟨[("a", ColData.numeric [some 1, some 2, some 3]),
          ("b", ColData.numeric [some 1, some 2, some 3]),
          ("c", ColData.numeric [some 1, some 2, some 3]),
          ("d", ColData.numeric [some 1, some 2, some 3])]⟩ = 6 ∧
    (generate_correlation_heatmap
        ⟨[("a", ColData.numeric [some 1, some 2, some 3]),
          ("b", ColData.numeric [some 1, some 2, some 3]),
          ("c", ColData.numeric [some 1, some 2, some 3]),
          ("d", ColData.numeric [some 1, some 2, some 3])]⟩).2 =
      "Correlation heatmap showing relationships between 4 numerical variables. Strong correlations found between 3 variable pairs." ∧
    (generate_correlation_heatmap
        ⟨[("a", ColData.numeric [some 1, some 2, some 3]),
          ("b", ColData.numeric [some 1, some 2, some 3]),
          ("c", ColData.numeric [some 1, some 2, some 3]),
          ("d", ColData.numeric [some 1, some 2, some 3])]⟩).2 ≠
      "Correlation heatmap showing relationships between 4 numerical variables. Strong correlations found between 6 variable pairs." := by
  have h2 :
      (generate_correlation_heatmap
        ⟨[("a", ColData.numeric [some 1, some 2, some 3]),
          ("b", ColData.numeric [some 1, some 2, some 3]),
          ("c", ColData.numeric [some 1, some 2, some 3]),
          ("d", ColData.numeric [some 1, some 2, some 3])]⟩).2 =
      "Correlation heatmap showing relationships between 4 numerical variables. Strong correlations found between 3 variable pairs." := by
    with_unfolding_all rfl
  refine ⟨by with_unfolding_all rfl, h2, ?_⟩
  rw [h2]
  decide

/-- C6 amended: with fewer than two numeric columns the heatmap
request returns the insufficient-columns error payload and matching
description; otherwise the description reports the number of numeric
variables and `min(3, k)` where `k` is the number of unordered column
pairs with |r| > 0.7 (the code caps the reported figure at 3; it is
not the full count). -/
theorem C6_amended (df : DataFrame) :
    (df.numericCols.length < 2 →
      generate_correlation_heatmap df =
        (.errorImage "Not enough numerical columns for heatmap",
         "Insufficient numerical columns (need at least 2) for correlation analysis")) ∧
    (2 ≤ df.numericCols.length →
      generate_correlation_heatmap df =
        (.dataImage (.heatFig (df.numericCols.map Prod.fst)),
         "Correlation heatmap showing relationships between " ++
           toString df.numericCols.length ++ " numerical variables. " ++
           (if 0 < strongPairCount df then
              "Strong correlations found between " ++ toString (min 3 (strongPairCount df)) ++
                " variable pairs."
            else "No strong correlations detected."))) := by
  constructor
  · intro h
    simp [generate_correlation_heatmap, h]
  · intro h
    simp [generate_correlation_heatmap, Nat.not_lt.mpr h]

/-- Witness for C6 amended: the one-numeric-column error (end-to-end
scenario 2) and a two-column frame with one strong pair. -/
theorem C6_amended_witness :
    generate_correlation_heatmap ⟨[("a", ColData.numeric [some 1, some 2])]⟩ =
      (.errorImage "Not enough numerical columns for heatmap",
       "Insufficient numerical columns (need at least 2) for correlation analysis") ∧
    generate_correlation_heatmap
        ⟨[("a", ColData.numeric [some 1, some 2]),
          ("b", ColData.numeric [some 2, some 5])]⟩ =
      (.dataImage (.heatFig ["a", "b"]),
       "Correlation heatmap showing relationships between 2 numerical variables. Strong correlations found between 1 variable pairs.") := by
  constructor
  · exact (C6_amended _).1 (by decide)
  · have h := (C6_amended ⟨[("a", ColData.numeric [some 1, some 2]),
      ("b", ColData.numeric [some 2, some 5])]⟩).2 (by decide)
    rw [h]
    with_unfolding_all rfl

/-- C3 counterexample: a model response that parses as the empty JSON
array yields zero usable suggestions, yet the engine returns the empty
list, not the (non-empty) rule-based fallback the claim requires. -/
theorem C3_counterexample :
    parse_ai_response (some []) [⟨"a", "numerical"⟩] = [] ∧
    generate_fallback_suggestions [⟨"a", "numerical"⟩] =
      [⟨some "histogram", some "a", none, some "Distribution of numerical variable"⟩] ∧
    parse_ai_response (some []) [⟨"a", "numerical"⟩] ≠
      generate_fallback_suggestions [⟨"a", "numerical"⟩] := by
  exact ⟨rfl, rfl, by decide⟩

/-- Helper: the fallback list never exceeds five entries. -/
theorem fallback_core_length_le (nc cc : List String) :
    (fallback_core nc cc).length ≤ 5 := by
  unfold fallback_core
  simp [List.length_take]

/-- Helper: the fallback list is non-empty as soon as one numerical or
categorical column exists. -/
theorem fallback_core_ne_nil (nc cc : List String) (h : nc ≠ [] ∨ cc ≠ []) :
    1 ≤ (fallback_core nc cc).length := by
  unfold fallback_core
  rcases nc with _ | ⟨n0, nrest⟩ <;> rcases cc with _ | ⟨c0, crest⟩
  · exact absurd h (by simp)
  · simp
  · rcases nrest with _ | ⟨n1, nrest2⟩
    · simp
    · have h2 : ¬(nrest2.length + 1 + 1 < 2) := by omega
      simp [h2]
  · rcases nrest with _ | ⟨n1, nrest2⟩
    · simp
    · have h2 : ¬(nrest2.length + 1 + 1 < 2) := by omega
      simp [h2]

/-- C3 amended: the rule-based fallback is returned exactly when the
model response fails to parse as JSON (`json.JSONDecodeError`); a
response that parses but yields zero usable suggestions returns the
empty list instead. The fallback itself has between 1 and 5 entries
whenever at least one column is numerical or categorical. -/
theorem C3_amended (cols : List ColumnInfo)
    (h : ∃ c ∈ cols, c.ctype = "numerical" ∨ c.ctype = "categorical") :
    parse_ai_response none cols = generate_fallback_suggestions cols ∧
    parse_ai_response (some []) cols = [] ∧
    1 ≤ (generate_fallback_suggestions cols).length ∧
    (generate_fallback_suggestions cols).length ≤ 5 := by
  refine ⟨rfl, rfl, ?_, fallback_core_length_le _ _⟩
  apply fallback_core_ne_nil
  rcases h with ⟨c, hc, hty | hty⟩
  · left
    have hmem : c ∈ cols.filter fun c => c.ctype == "numerical" :=
      List.mem_filter.mpr ⟨hc, by simp [hty]⟩
    exact List.ne_nil_of_mem (List.mem_map_of_mem _ hmem)
  · right
    have hmem : c ∈ cols.filter fun c => c.ctype == "categorical" :=
      List.mem_filter.mpr ⟨hc, by simp [hty]⟩
    exact List.ne_nil_of_mem (List.mem_map_of_mem _ hmem)

/-- Witness for C3 amended, at a single numerical column. -/
theorem C3_amended_witness :
    parse_ai_response none [⟨"a", "numerical"⟩] =
      generate_fallback_suggestions [⟨"a", "numerical"⟩] ∧
    parse_ai_response (some []) [⟨"a", "numerical"⟩] = [] ∧
    1 ≤ (generate_fallback_suggestions [⟨"a", "numerical"⟩]).length ∧
    (generate_fallback_suggestions [⟨"a", "numerical"⟩]).length ≤ 5 :=
  C3_amended [⟨"a", "numerical"⟩] ⟨⟨"a", "numerical"⟩, by simp, Or.inl rfl⟩

/-- C2 counterexample: a parsed response containing a `line`
suggestion over existing columns is returned unchanged — the code
filters only heatmap, box and scatter, so the policy-excluded type
`line` claimed by the spec is not excluded. -/
theorem C2_counterexample :
    parse_ai_response (some [⟨some "line", some "a", some "b", none⟩])
        [⟨"a", "numerical"⟩, ⟨"b", "numerical"⟩] =
      [⟨some "line", some "a", some "b", none⟩] ∧
    (⟨some "line", some "a", some "b", none⟩ : Suggestion).type = some "line" :=
  ⟨rfl, rfl⟩

/-- Helper: every fallback suggestion has an allowed type, an x among
the given names, and a y (when present) among the given names. -/
theorem fallback_core_mem (nc cc names : List String)
    (hnc : ∀ v ∈ nc, v ∈ names) (hcc : ∀ v ∈ cc, v ∈ names) :
    ∀ s ∈ fallback_core nc cc,
      s.type ≠ some "heatmap" ∧ s.type ≠ some "box" ∧ s.type ≠ some "scatter" ∧
      (∃ v, s.x = some v ∧ v ∈ names) ∧
      (∀ v, s.y = some v → v ∈ names) := by
  intro s hs
  unfold fallback_core at hs
  rcases nc with _ | ⟨n0, nrest⟩ <;> rcases cc with _ | ⟨c0, crest⟩
  · simp at hs
  · simp at hs
    subst hs
    exact ⟨by simp, by simp, by simp, ⟨c0, rfl, hcc c0 (by simp)⟩, by simp⟩
  · rcases nrest with _ | ⟨n1, nrest2⟩
    · simp at hs
      subst hs
      exact ⟨by simp, by simp, by simp, ⟨n0, rfl, hnc n0 (by simp)⟩, by simp⟩
    · have h2 : ¬(nrest2.length + 1 + 1 < 2) := by omega
      simp [h2] at hs
      rcases hs with hs | hs | hs <;> subst hs
      · exact ⟨by simp, by simp, by simp, ⟨n0, rfl, hnc n0 (by simp)⟩, by simp⟩
      · exact ⟨by simp, by simp, by simp, ⟨n0, rfl, hnc n0 (by simp)⟩,
          fun v hv => by simp at hv; subst hv; exact hnc n1 (by simp)⟩
      · exact ⟨by simp, by simp, by simp, ⟨n1, rfl, hnc n1 (by simp)⟩, by simp⟩
  · rcases nrest with _ | ⟨n1, nrest2⟩
    · simp at hs
      rcases hs with hs | hs | hs <;> subst hs
      · exact ⟨by simp, by simp, by simp, ⟨n0, rfl, hnc n0 (by simp)⟩, by simp⟩
      · exact ⟨by simp, by simp, by simp, ⟨c0, rfl, hcc c0 (by simp)⟩,
          fun v hv => by simp at hv; subst hv; exact hnc n0 (by simp)⟩
      · exact ⟨by simp, by simp, by simp, ⟨c0, rfl, hcc c0 (by simp)⟩, by simp⟩
    · have h2 : ¬(nrest2.length + 1 + 1 < 2) := by omega
      simp [h2] at hs
      rcases hs with hs | hs | hs | hs | hs <;> subst hs
      · exact ⟨by simp, by simp, by simp, ⟨n0, rfl, hnc n0 (by simp)⟩, by simp⟩
      · exact ⟨by simp, by simp, by simp, ⟨c0, rfl, hcc c0 (by simp)⟩,
          fun v hv => by simp at hv; subst hv; exact hnc n0 (by simp)⟩
      · exact ⟨by simp, by simp, by simp, ⟨c0, rfl, hcc c0 (by simp)⟩, by simp⟩
      · exact ⟨by simp, by simp, by simp, ⟨n0, rfl, hnc n0 (by simp)⟩,
          fun v hv => by simp at hv; subst hv; exact hnc n1 (by simp)⟩
      · exact ⟨by simp, by simp, by simp, ⟨n1, rfl, hnc n1 (by simp)⟩, by simp⟩

/-- Helper: everything the validation loop returns was in the
accumulator or survived both column checks. -/
theorem validateLoop_sub (names : List String) (l : List Suggestion) :
    ∀ acc : List Suggestion, ∀ s ∈ validateLoop names l acc,
      s ∈ acc ∨ (s ∈ l ∧ xOk s names = true ∧ yBad s names = false) := by
  induction l with
  | nil =>
      intro acc s hs
      simp only [validateLoop] at hs
      exact Or.inl hs
  | cons a rest ih =>
      intro acc s hs
      simp only [validateLoop] at hs
      by_cases hx : xOk a names = true
      · rw [if_neg (by simp [hx])] at hs
        by_cases hy : yBad a names = true
        · rw [if_pos hy] at hs
          rcases ih acc s hs with h | h
          · exact Or.inl h
          · exact Or.inr ⟨List.mem_cons_of_mem _ h.1, h.2⟩
        · rw [if_neg hy] at hs
          have hy' : yBad a names = false := by
            revert hy; cases yBad a names <;> simp
          by_cases h5 : 5 ≤ (acc ++ [a]).length
          · rw [if_pos h5] at hs
            rcases List.mem_append.mp hs with h | h
            · exact Or.inl h
            · rw [List.mem_singleton.mp h]
              exact Or.inr ⟨List.mem_cons_self _ _, hx, hy'⟩
          · rw [if_neg h5] at hs
            rcases ih (acc ++ [a]) s hs with h | h
            · rcases List.mem_append.mp h with h' | h'
              · exact Or.inl h'
              · rw [List.mem_singleton.mp h']
                exact Or.inr ⟨List.mem_cons_self _ _, hx, hy'⟩
            · exact Or.inr ⟨List.mem_cons_of_mem _ h.1, h.2⟩
      · have hx' : xOk a names = false := by
          revert hx; cases xOk a names <;> simp
        rw [if_pos (by simp [hx'])] at hs
        rcases ih acc s hs with h | h
        · exact Or.inl h
        · exact Or.inr ⟨List.mem_cons_of_mem _ h.1, h.2⟩

/-- Helper: the validation loop never returns more than five
suggestions when started below the cap. -/
theorem validateLoop_length (names : List String) (l : List Suggestion) :
    ∀ acc : List Suggestion, acc.length < 5 → (validateLoop names l acc).length ≤ 5 := by
  induction l with
  | nil =>
      intro acc h
      simp only [validateLoop]
      omega
  | cons a rest ih =>
      intro acc h
      simp only [validateLoop]
      by_cases hx : xOk a names = true
      · rw [if_neg (by simp [hx])]
        by_cases hy : yBad a names = true
        · rw [if_pos hy]; exact ih acc h
        · rw [if_neg hy]
          by_cases h5 : 5 ≤ (acc ++ [a]).length
          · rw [if_pos h5]
            simp only [List.length_append, List.length_singleton]
            omega
          · rw [if_neg h5]
            exact ih _ (by omega)
      · have hx' : xOk a names = false := by
          revert hx; cases xOk a names <;> simp
        rw [if_pos (by simp [hx'])]
        exact ih acc h

/-- C2 amended: every suggestion the engine returns (from either the
validation path or the fallback) has a type other than heatmap, box
and scatter (`line` is NOT excluded by the code), an x naming an
existing column, and a y naming an existing column whenever the y is
present and non-empty (Python truthiness: an empty-string y skips the
check); and at most five suggestions are returned. -/
theorem C2_amended (parsed : Option (List Suggestion)) (cols : List ColumnInfo)
    (s : Suggestion) (hs : s ∈ parse_ai_response parsed cols) :
    s.type ≠ some "heatmap" ∧ s.type ≠ some "box" ∧ s.type ≠ some "scatter" ∧
    (∃ v, s.x = some v ∧ v ∈ cols.map (·.name)) ∧
    (∀ v, s.y = some v → v ≠ "" → v ∈ cols.map (·.name)) ∧
    (parse_ai_response parsed cols).length ≤ 5 := by
  cases parsed with
  | none =>
      simp only [parse_ai_response, generate_fallback_suggestions] at hs ⊢
      have hsub : ∀ (p : ColumnInfo → Bool) (v : String),
          v ∈ (cols.filter p).map (·.name) → v ∈ cols.map (·.name) := by
        intro p v hv
        rcases List.mem_map.mp hv with ⟨c, hc, rfl⟩
        exact List.mem_map_of_mem _ (List.mem_of_mem_filter hc)
      have h := fallback_core_mem
        ((cols.filter fun c => c.ctype == "numerical").map (·.name))
        ((cols.filter fun c => c.ctype == "categorical").map (·.name))
        (cols.map (·.name)) (hsub _) (hsub _) s hs
      exact ⟨h.1, h.2.1, h.2.2.1, h.2.2.2.1,
        fun v hv _ => h.2.2.2.2 v hv, fallback_core_length_le _ _⟩
  | some l =>
      simp only [parse_ai_response] at hs ⊢
      have h := validateLoop_sub (cols.map (·.name)) (l.filter typeAllowed) [] s hs
      rcases h with h | ⟨hmem, hx, hy⟩
      · simp at h
      · have hta : typeAllowed s = true := List.of_mem_filter hmem
        unfold typeAllowed at hta
        refine ⟨?_, ?_, ?_, ?_, ?_, validateLoop_length _ _ [] (by simp)⟩
        · intro hty
          rw [hty] at hta
          simp at hta
        · intro hty
          rw [hty] at hta
          simp at hta
        · intro hty
          rw [hty] at hta
          simp at hta
        · unfold xOk at hx
          cases sx : s.x with
          | none => rw [sx] at hx; simp at hx
          | some v =>
              rw [sx] at hx
              simp at hx
              rcases hx with ⟨c, hc, h⟩
              exact ⟨v, rfl, List.mem_map.mpr ⟨c, hc, h⟩⟩
        · intro v hv hne
          unfold yBad at hy
          rw [hv] at hy
          simp [hne] at hy
          rcases hy with ⟨c, hc, h⟩
          exact List.mem_map.mpr ⟨c, hc, h⟩

/-- Witness for C2 amended: a parsed histogram suggestion over an
existing column is returned and satisfies all the guarantees. -/
theorem C2_amended_witness :
    (⟨some "histogram", some "a", none, none⟩ : Suggestion).type ≠ some "heatmap" ∧
    (⟨some "histogram", some "a", none, none⟩ : Suggestion).type ≠ some "box" ∧
    (⟨some "histogram", some "a", none, none⟩ : Suggestion).type ≠ some "scatter" ∧
    (∃ v, (⟨some "histogram", some "a", none, none⟩ : Suggestion).x = some v ∧
      v ∈ ([⟨"a", "numerical"⟩] : List ColumnInfo).map (·.name)) ∧
    (∀ v, (⟨some "histogram", some "a", none, none⟩ : Suggestion).y = some v → v ≠ "" →
      v ∈ ([⟨"a", "numerical"⟩] : List ColumnInfo).map (·.name)) ∧
    (parse_ai_response (some [⟨some "histogram", some "a", none, none⟩])
      [⟨"a", "numerical"⟩]).length ≤ 5 :=
  C2_amended (some [⟨some "histogram", some "a", none, none⟩]) [⟨"a", "numerical"⟩]
    ⟨some "histogram", some "a", none, none⟩ (by decide)

/-- Helper: a successful column lookup means the name occurs in
`df.columns`. -/
theorem getCol_contains {df : DataFrame} {x : String} (h : df.getCol x ≠ none) :
    df.colNames.contains x = true := by
  unfold DataFrame.getCol at h
  rcases hf : df.cols.find? (fun p => p.1 == x) with _ | p
  · rw [hf] at h; simp at h
  · have hp : p.1 = x := by simpa using List.find?_some hf
    have hmem : x ∈ df.colNames :=
      hp ▸ List.mem_map_of_mem Prod.fst (List.mem_of_find?_eq_some hf)
    simpa using hmem

/-- C10: a render request of type bar, line or violin with no y column
does not draw that chart: the guards `graph_type == '...' and y_col`
fail, control falls to the default branch, and the result is the
20-bin histogram of x with the generic description — the same
behavior as an unrecognized chart type. -/
theorem C10_bar_line_violin_without_y (df : DataFrame) (gt x : String)
    (hgt : gt = "bar" ∨ gt = "line" ∨ gt = "violin")
    (hx : df.getCol x ≠ none)
    (hne : df.isEmptyDf = false) :
    create_figure_with_description df gt x none =
      .ok (.hist20 x,
        "Visualization of " ++ x ++ " distribution with " ++ toString df.nRows ++
          " data points.") ∧
    generate_visualization df gt x none =
      (.dataImage (.hist20 x),
       "Visualization of " ++ x ++ " distribution with " ++ toString df.nRows ++
         " data points.") ∧
    generate_visualization df gt x none =
      generate_visualization df "unrecognized_type" x none := by
  obtain ⟨cd, hcd⟩ : ∃ cd, df.getCol x = some cd := by
    rcases hgc : df.getCol x with _ | cd
    · exact absurd hgc hx
    · exact ⟨cd, rfl⟩
  have hc : df.colNames.contains x = true := getCol_contains hx
  have hfig : ∀ g : String, g = "bar" ∨ g = "line" ∨ g = "violin" ∨
      g = "unrecognized_type" →
      create_figure_with_description df g x none =
        .ok (.hist20 x,
          "Visualization of " ++ x ++ " distribution with " ++ toString df.nRows ++
            " data points.") := by
    intro g hg
    rcases hg with rfl | rfl | rfl | rfl <;>
      simp [create_figure_with_description, truthy, hcd]
  have hgen : ∀ g : String, g = "bar" ∨ g = "line" ∨ g = "violin" ∨
      g = "unrecognized_type" →
      generate_visualization df g x none =
        (.dataImage (.hist20 x),
         "Visualization of " ++ x ++ " distribution with " ++ toString df.nRows ++
           " data points.") := by
    intro g hg
    have hf := hfig g hg
    have hmm : x ∈ df.colNames := by simpa using hc
    rcases hg with rfl | rfl | rfl | rfl <;>
      simp [generate_visualization, truthy, hne, hc, hmm, hf]
  rcases hgt with rfl | rfl | rfl <;>
    exact ⟨hfig _ (by simp), hgen _ (by simp),
      (hgen _ (by simp)).trans (hgen "unrecognized_type" (by simp)).symm⟩

/-- Witness for C10: a bar request without y on a two-column frame
renders the default histogram of x. -/
theorem C10_witness :
    create_figure_with_description
        ⟨[("a", ColData.numeric [some 1, some 2])]⟩ "bar" "a" none =
      .ok (.hist20 "a", "Visualization of a distribution with 2 data points.") ∧
    generate_visualization ⟨[("a", ColData.numeric [some 1, some 2])]⟩ "bar" "a" none =
      (.dataImage (.hist20 "a"), "Visualization of a distribution with 2 data points.") ∧
    generate_visualization ⟨[("a", ColData.numeric [some 1, some 2])]⟩ "bar" "a" none =
      generate_visualization ⟨[("a", ColData.numeric [some 1, some 2])]⟩
        "unrecognized_type" "a" none := by
  have h := C10_bar_line_violin_without_y ⟨[("a", ColData.numeric [some 1, some 2])]⟩
    "bar" "a" (Or.inl rfl) (by decide) (by decide)
  simpa using h

/-- C5: `generate_visualization` is total — for every input it returns
an (image payload, description) pair, never an exception. An empty
dataframe, an absent x column (sentinel excepted), or an absent
truthy y column each yield the designated error payload plus the
matching explanatory description; and when the rendering step fails
(modelled by `Except.error`), the exception is caught and converted
into the error payload plus an `Error: ...` description. -/
theorem C5_generate_visualization_total (df : DataFrame) (gt x : String)
    (y : Option String) :
    (df.isEmptyDf = true →
      generate_visualization df gt x y =
        (.errorImage "Empty dataset", "Empty dataset - no data to visualize")) ∧
    (df.isEmptyDf = false → x ≠ "all_numerical" → x ∉ df.colNames →
      generate_visualization df gt x y =
        (.errorImage ("X-axis column \x27" ++ x ++ "\x27 not found"),
         "Error: X-axis column \x27" ++ x ++ "\x27 not found in dataset")) ∧
    (∀ v, df.isEmptyDf = false →
      ¬(gt = "heatmap" ∧ x = "all_numerical") →
      ¬(gt = "box" ∧ x = "all_numerical") →
      (x ∈ df.colNames ∨ x = "all_numerical") →
      y = some v → v ≠ "" → v ∉ df.colNames →
      generate_visualization df gt x y =
        (.errorImage ("Y-axis column \x27" ++ v ++ "\x27 not found"),
         "Error: Y-axis column \x27" ++ v ++ "\x27 not found in dataset")) ∧
    (∀ e, df.isEmptyDf = false →
      ¬(gt = "heatmap" ∧ x = "all_numerical") →
      ¬(gt = "box" ∧ x = "all_numerical") →
      (x ∈ df.colNames ∨ x = "all_numerical") →
      (truthy y = false ∨ (y.getD "") ∈ df.colNames) →
      create_figure_with_description df gt x y = .error e →
      generate_visualization df gt x y =
        (.errorImage ("Error generating visualization: " ++ e), "Error: " ++ e)) ∧
    (∀ fig d, df.isEmptyDf = false →
      ¬(gt = "heatmap" ∧ x = "all_numerical") →
      ¬(gt = "box" ∧ x = "all_numerical") →
      (x ∈ df.colNames ∨ x = "all_numerical") →
      (truthy y = false ∨ (y.getD "") ∈ df.colNames) →
      create_figure_with_description df gt x y = .ok (fig, d) →
      generate_visualization df gt x y = (.dataImage fig, d)) := by
  refine ⟨?_, ?_, ?_, ?_, ?_⟩
  · intro h
    simp [generate_visualization, h]
  · intro h1 h2 h3
    simp [generate_visualization, h1, h2, h3]
  · intro v h1 h2 h3 h4 h5 h6 h7
    subst h5
    rcases h4 with h4 | h4
    · simp [generate_visualization, h1, h2, h3, h4, truthy, h6, h7]
    · subst h4
      have hh : gt ≠ "heatmap" := fun hg => h2 ⟨hg, rfl⟩
      have hb : gt ≠ "box" := fun hg => h3 ⟨hg, rfl⟩
      simp [generate_visualization, h1, hh, hb, truthy, h6, h7]
  · intro e h1 h2 h3 h4 h5 hcf
    rcases h4 with h4 | h4
    · rcases h5 with h5 | h5 <;>
        simp [generate_visualization, h1, h2, h3, h4, h5, hcf]
    · subst h4
      have hh : gt ≠ "heatmap" := fun hg => h2 ⟨hg, rfl⟩
      have hb : gt ≠ "box" := fun hg => h3 ⟨hg, rfl⟩
      rcases h5 with h5 | h5 <;>
        simp [generate_visualization, h1, hh, hb, h5, hcf]
  · intro fig d h1 h2 h3 h4 h5 hcf
    rcases h4 with h4 | h4
    · rcases h5 with h5 | h5 <;>
        simp [generate_visualization, h1, h2, h3, h4, h5, hcf]
    · subst h4
      have hh : gt ≠ "heatmap" := fun hg => h2 ⟨hg, rfl⟩
      have hb : gt ≠ "box" := fun hg => h3 ⟨hg, rfl⟩
      rcases h5 with h5 | h5 <;>
        simp [generate_visualization, h1, hh, hb, h5, hcf]

/-- Witness for C5: the empty-dataset arm, the absent-x arm, the
absent-y arm, and the caught-rendering-exception arm, each at a
concrete frame. -/
theorem C5_witness :
    generate_visualization ⟨[]⟩ "histogram" "a" none =
      (.errorImage "Empty dataset", "Empty dataset - no data to visualize") ∧
    generate_visualization ⟨[("a", ColData.numeric [some 1])]⟩ "histogram" "zz" none =
      (.errorImage ("X-axis column \x27zz\x27 not found"),
       "Error: X-axis column \x27zz\x27 not found in dataset") ∧
    generate_visualization ⟨[("a", ColData.numeric [some 1])]⟩ "bar" "a" (some "zz") =
      (.errorImage ("Y-axis column \x27zz\x27 not found"),
       "Error: Y-axis column \x27zz\x27 not found in dataset") ∧
    generate_visualization ⟨[("s", ColData.object [some "u"])]⟩ "histogram" "s" none =
      (.errorImage ("Error generating visualization: " ++
         "cannot compute describe statistics of column s"),
       "Error: " ++ "cannot compute describe statistics of column s") := by
  refine ⟨?_, ?_, ?_, ?_⟩
  · exact (C5_generate_visualization_total ⟨[]⟩ "histogram" "a" none).1 rfl
  · exact (C5_generate_visualization_total _ "histogram" "zz" none).2.1 (by decide)
      (by decide) (by decide)
  · exact (C5_generate_visualization_total _ "bar" "a" (some "zz")).2.2.1 "zz"
      (by decide) (by decide) (by decide) (Or.inl (by decide)) rfl (by decide) (by decide)
  · exact (C5_generate_visualization_total _ "histogram" "s" none).2.2.2.1
      "cannot compute describe statistics of column s"
      (by decide) (by decide) (by decide) (Or.inl (by decide)) (Or.inl rfl) rfl

/-- Helper: row selection gives one cell per selected index. -/
theorem ColData.takeIdx_length (c : ColData) (idxs : List Nat) :
    (c.takeIdx idxs).length = idxs.length := by
  cases c <;> simp [ColData.takeIdx, ColData.length]

/-- Helper: the fill loop does not change the number of cells. -/
theorem fillCol_length (c : ColData) : (fillCol c).length = c.length := by
  cases c <;> simp [fillCol, fillNum, fillna, fillObj, fillnaStr, ColData.length]

/-- Helper: label encoding does not change the number of cells. -/
theorem encodeCol_length (c : ColData) : (encodeCol c).length = c.length := by
  cases c <;> simp [encodeCol, encodeVals, strValues, ColData.length]

/-- C9: `clean_dataframe` operates on a copy (the embedding is pure,
as is the Python code after the `df.copy()` at line 47), keeps exactly
the input's column names in their order, and changes the row count
only by removing exact duplicate rows: the cleaned frame has one row
per kept index, the kept indices are the first occurrences of the
distinct row tuples, and every dropped index repeats an earlier row. -/
theorem C9_clean_frame_effect (df : DataFrame) :
    (clean_dataframe df).1.cols.map Prod.fst = df.cols.map Prod.fst ∧
    (clean_dataframe df).1.nRows = (keepIndices df).length ∧
    (keepIndices df).length ≤ df.nRows ∧
    (∀ p ∈ (clean_dataframe df).1.cols, p.2.length = (keepIndices df).length) ∧
    (∀ i ∈ keepIndices df, ∀ j, j < i → df.rowAt j ≠ df.rowAt i) ∧
    (∀ i, i < df.nRows → i ∉ keepIndices df →
      ∃ j, j < i ∧ df.rowAt j = df.rowAt i) := by
  refine ⟨?_, ?_, ?_, ?_, ?_, ?_⟩
  · simp [clean_dataframe, dropDuplicates, List.map_map, Function.comp]
  · cases hc : df.cols with
    | nil =>
        simp [clean_dataframe, dropDuplicates, DataFrame.nRows, keepIndices, hc]
    | cons p rest =>
        simp [clean_dataframe, dropDuplicates, DataFrame.nRows, hc,
          encodeCol_length, fillCol_length, ColData.takeIdx_length]
  · exact (List.length_filter_le _ _).trans (by simp)
  · intro p hp
    simp only [clean_dataframe, dropDuplicates, List.map_map, List.mem_map] at hp
    rcases hp with ⟨q, hq, rfl⟩
    simp [encodeCol_length, fillCol_length, ColData.takeIdx_length]
  · intro i hi j hj
    unfold keepIndices at hi
    have h := (List.mem_filter.mp hi).2
    simp only [List.all_eq_true, List.mem_range, decide_eq_true_eq] at h
    exact h j hj
  · intro i h1 h2
    by_contra h3
    push_neg at h3
    apply h2
    unfold keepIndices
    refine List.mem_filter.mpr ⟨List.mem_range.mpr h1, ?_⟩
    simp only [List.all_eq_true, List.mem_range, decide_eq_true_eq]
    exact fun j hj => h3 j hj

/-- Witness for C9, at one numeric column `[1, 1, 2]`: the cleaned
column has one cell per kept index, row 2 differs from row 0, and the
dropped row 1 repeats an earlier row. -/
theorem C9_witness :
    ("n", ColData.numeric [some 1, some 2]).2.length =
      (keepIndices ⟨[("n", ColData.numeric [some 1, some 1, some 2])]⟩).length ∧
    (⟨[("n", ColData.numeric [some 1, some 1, some 2])]⟩ : DataFrame).rowAt 0 ≠
      (⟨[("n", ColData.numeric [some 1, some 1, some 2])]⟩ : DataFrame).rowAt 2 ∧
    ∃ j, j < 1 ∧
      (⟨[("n", ColData.numeric [some 1, some 1, some 2])]⟩ : DataFrame).rowAt j =
        (⟨[("n", ColData.numeric [some 1, some 1, some 2])]⟩ : DataFrame).rowAt 1 := by
  have h := C9_clean_frame_effect ⟨[("n", ColData.numeric [some 1, some 1, some 2])]⟩
  refine ⟨?_, ?_, ?_⟩
  · exact h.2.2.2.1 ("n", ColData.numeric [some 1, some 2])
      (of_decide_eq_true (by with_unfolding_all rfl))
  · exact h.2.2.2.2.1 2 (of_decide_eq_true (by with_unfolding_all rfl)) 0 (by decide)
  · exact h.2.2.2.2.2 1 (by decide) (of_decide_eq_true (by with_unfolding_all rfl))

/-- C8: `clean_dataframe` first deduplicates, then fills each column
independently — a numeric column's missing entries get the median of
the deduplicated column (an all-missing column has median NaN and
stays missing, and no exception is raised), a non-numeric column's
missing entries get the column's most frequent value, or "Unknown"
when every value is missing — and the function is total on zero-row
and all-missing inputs, as the concrete evaluations show. -/
theorem C8_fill_semantics (df : DataFrame) (cells : List (Option ℚ))
    (scells : List (Option String)) :
    (clean_dataframe df).1.cols =
      (dropDuplicates df).cols.map (fun p => (p.1, encodeCol (fillCol p.2))) ∧
    fillCol (.numeric cells) =
      .numeric (cells.map fun c =>
        match c with
        | some v => some v
        | none => median cells) ∧
    fillCol (.object scells) =
      .object (scells.map fun c => some (c.getD (fillValue scells))) ∧
    clean_dataframe ⟨[("a", ColData.numeric [none, none])]⟩ =
      (⟨[("a", ColData.numeric [none])]⟩, []) ∧
    clean_dataframe ⟨[("b", ColData.object [none, none])]⟩ =
      (⟨[("b", ColData.numeric [some 0])]⟩, [("b", [(0, "Unknown")])]) ∧
    clean_dataframe ⟨[("c", ColData.numeric [])]⟩ =
      (⟨[("c", ColData.numeric [])]⟩, []) := by
  refine ⟨?_, ?_, ?_, ?_, ?_, ?_⟩
  · simp [clean_dataframe, List.map_map, Function.comp]
  · simp only [fillCol, fillNum, fillna]
    congr 1
    apply List.map_congr_left
    intro c _
    cases c <;> rfl
  · simp only [fillCol, fillObj, fillnaStr, fillValue]
    congr 1
    apply List.map_congr_left
    intro c _
    cases c <;> rfl
  · with_unfolding_all rfl
  · with_unfolding_all rfl
  · with_unfolding_all rfl

/-- Helper: membership in the sorted deduplicated list. -/
theorem mem_sortedUniq {a : String} {l : List String} : a ∈ sortedUniq l ↔ a ∈ l :=
  ((List.perm_insertionSort _ _).mem_iff).trans List.mem_dedup

/-- Helper: the sorted deduplicated list has no duplicates. -/
theorem nodup_sortedUniq (l : List String) : (sortedUniq l).Nodup :=
  ((List.perm_insertionSort _ _).nodup_iff).mpr (List.nodup_dedup l)

/-- Helper: the class list is strictly increasing. -/
theorem sorted_lt_sortedUniq (l : List String) :
    List.Sorted (· < ·) (sortedUniq l) :=
  (List.sorted_insertionSort _ _).lt_of_le (nodup_sortedUniq l)

/-- Helper: the code of a present value is in range. -/
theorem idxOf_lt_length : ∀ (cs : List String) (v : String),
    v ∈ cs → idxOf cs v < cs.length
  | [], v, h => absurd h (List.not_mem_nil v)
  | c :: rest, v, h => by
      by_cases hc : c = v
      · simp [idxOf, hc]
      · have hv : v ∈ rest := by
          rcases List.mem_cons.mp h with h' | h'
          · exact absurd h'.symm hc
          · exact h'
        simpa [idxOf, hc] using idxOf_lt_length rest v hv

/-- Helper: indexing the class list at a value's code returns the
value. -/
theorem get?_idxOf : ∀ (cs : List String) (v : String),
    v ∈ cs → cs.get? (idxOf cs v) = some v
  | [], v, h => absurd h (List.not_mem_nil v)
  | c :: rest, v, h => by
      by_cases hc : c = v
      · simp [idxOf, hc]
      · have hv : v ∈ rest := by
          rcases List.mem_cons.mp h with h' | h'
          · exact absurd h'.symm hc
          · exact h'
        simpa [idxOf, hc] using get?_idxOf rest v hv

/-- Helper: the stored codes are consecutive integers from the start
value. -/
theorem withCodes_map_fst : ∀ (n : Nat) (cs : List String),
    (withCodes n cs).map Prod.fst = List.range' n cs.length
  | _, [] => by simp [withCodes]
  | n, c :: cs => by
      simp [withCodes, List.range'_succ, withCodes_map_fst (n + 1) cs]

/-- Helper: the stored classes are exactly the class list. -/
theorem withCodes_map_snd : ∀ (n : Nat) (cs : List String),
    (withCodes n cs).map Prod.snd = cs
  | _, [] => by simp [withCodes]
  | n, c :: cs => by simp [withCodes, withCodes_map_snd (n + 1) cs]

/-- Helper: looking a code up in the enumerated mapping indexes the
class list. -/
theorem lookupCode_withCodes : ∀ (cs : List String) (n k : Nat),
    k < cs.length → lookupCode (withCodes n cs) (n + k) = cs.get? k
  | [], _, k, h => by simp at h
  | c :: rest, n, k, h => by
      cases k with
      | zero =>
          simp [withCodes, lookupCode, List.find?]
      | succ k' =>
          have hne : ((n : Nat) == n + (k' + 1)) = false := by
            simp only [beq_eq_false_iff_ne, ne_eq]
            omega
          have hstep : n + (k' + 1) = (n + 1) + k' := by omega
          simp only [withCodes, lookupCode, List.find?, hne]
          rw [hstep]
          exact lookupCode_withCodes rest (n + 1) k' (by simpa using h)

/-- Helper: the post-fill string values are the original strings, with
each missing entry replaced by the fill value. -/
theorem filledVals_eq (cells : List (Option String)) :
    filledVals cells = cells.map (fun c => c.getD (fillValue cells)) := by
  simp only [filledVals, strValues, fillObj, fillnaStr, fillValue, List.map_map]
  apply List.map_congr_left
  intro c _
  cases c <;> rfl

/-- C1: for every object column surviving deduplication,
`clean_dataframe` stores an encoding map whose codes are exactly
`0..k-1` (`k` the number of distinct post-fill values), listed against
the distinct post-fill values in strictly increasing lexicographic
order, and replaces the column by the code column; decoding each code
through the map returns the post-fill value, which is the original
string where one was present and the fill value where the entry was
missing. -/
theorem C1_encoding_map_roundtrip (df : DataFrame) (nm : String)
    (cells : List (Option String))
    (h : (nm, ColData.object cells) ∈ (dropDuplicates df).cols) :
    (nm, mappingOf (fillObj cells)) ∈ (clean_dataframe df).2 ∧
    (nm, ColData.numeric (encodeVals (fillObj cells))) ∈ (clean_dataframe df).1.cols ∧
    (mappingOf (fillObj cells)).map Prod.fst = List.range (classesOf cells).length ∧
    (mappingOf (fillObj cells)).map Prod.snd = classesOf cells ∧
    List.Pairwise (· < ·) (classesOf cells) ∧
    (∀ i v, (filledVals cells).get? i = some v →
      (encodeVals (fillObj cells)).get? i =
        some (some ((idxOf (classesOf cells) v : ℕ) : ℚ)) ∧
      lookupCode (mappingOf (fillObj cells)) (idxOf (classesOf cells) v) = some v ∧
      ((∃ s, cells.get? i = some (some s) ∧ v = s) ∨
       (cells.get? i = some none ∧ v = fillValue cells))) := by
  refine ⟨?_, ?_, ?_, ?_, ?_, ?_⟩
  · simp only [clean_dataframe]
    exact List.mem_filterMap.mpr
      ⟨(nm, ColData.object (fillObj cells)), List.mem_map_of_mem _ h, rfl⟩
  · simp only [clean_dataframe]
    exact List.mem_map_of_mem _ (List.mem_map_of_mem _ h)
  · show (withCodes 0 (classesOf cells)).map Prod.fst = _
    rw [withCodes_map_fst, List.range_eq_range']
  · exact withCodes_map_snd 0 _
  · exact sorted_lt_sortedUniq _
  · intro i v hv
    have hvmem : v ∈ classesOf cells := by
      rw [classesOf, mem_sortedUniq]
      exact List.get?_mem hv
    refine ⟨?_, ?_, ?_⟩
    · show ((filledVals cells).map
        (fun v => some ((idxOf (classesOf cells) v : ℕ) : ℚ))).get? i = _
      rw [List.get?_map, hv]
      rfl
    · have hk := idxOf_lt_length _ _ hvmem
      have hl := lookupCode_withCodes (classesOf cells) 0 (idxOf (classesOf cells) v) hk
      rw [Nat.zero_add] at hl
      show lookupCode (withCodes 0 (classesOf cells)) _ = _
      rw [hl]
      exact get?_idxOf _ _ hvmem
    · rw [filledVals_eq, List.get?_map] at hv
      rcases hc0 : cells.get? i with _ | c0
      · rw [hc0] at hv
        simp at hv
      · rw [hc0] at hv
        simp only [Option.map_some'] at hv
        cases c0 with
        | none =>
            refine Or.inr ⟨rfl, ?_⟩
            simpa using hv.symm
        | some s =>
            refine Or.inl ⟨s, rfl, ?_⟩
            simpa using hv.symm

/-- Witness for C1, at a single object column with a missing entry
and two distinct values ("a" < "b", mode tie resolved to "a"). -/
theorem C1_witness :
    ("c", mappingOf (fillObj [some "b", none, some "a"])) ∈
      (clean_dataframe ⟨[("c", ColData.object [some "b", none, some "a"])]⟩).2 ∧
    ("c", ColData.numeric (encodeVals (fillObj [some "b", none, some "a"]))) ∈
      (clean_dataframe ⟨[("c", ColData.object [some "b", none, some "a"])]⟩).1.cols ∧
    (mappingOf (fillObj [some "b", none, some "a"])).map Prod.fst =
      List.range (classesOf [some "b", none, some "a"]).length ∧
    (mappingOf (fillObj [some "b", none, some "a"])).map Prod.snd =
      classesOf [some "b", none, some "a"] ∧
    List.Pairwise (· < ·) (classesOf [some "b", none, some "a"]) ∧
    (∀ i v, (filledVals [some "b", none, some "a"]).get? i = some v →
      (encodeVals (fillObj [some "b", none, some "a"])).get? i =
        some (some ((idxOf (classesOf [some "b", none, some "a"]) v : ℕ) : ℚ)) ∧
      lookupCode (mappingOf (fillObj [some "b", none, some "a"]))
        (idxOf (classesOf [some "b", none, some "a"]) v) = some v ∧
      ((∃ s, ([some "b", none, some "a"] : List (Option String)).get? i =
          some (some s) ∧ v = s) ∨
       (([some "b", none, some "a"] : List (Option String)).get? i = some none ∧
        v = fillValue [some "b", none, some "a"]))) :=
  C1_encoding_map_roundtrip ⟨[("c", ColData.object [some "b", none, some "a"])]⟩
    "c" [some "b", none, some "a"]
    (of_decide_eq_true (by with_unfolding_all rfl))

end AIDA
